import Mathlib

/-!
# Verification of the Portal-Escritura CRUD application

Shallow embedding of `app.py`: a PIN-gated note portal storing rows of a
single `writings` table, with per-category list/create/update, download
(PDF export) and delete routes.

Modelling conventions:
* The SQLite `writings` table is a `List Writing` (insertion order = rowid
  order); timestamps are the ISO-8601 `TEXT` values the code stores, kept
  as `String` (lexicographic comparison on ISO-8601 strings agrees with
  chronological order, and SQLite compares `TEXT` bytewise on UTF-8, which
  agrees with Lean's codepoint-lexicographic `String` order).
* `time.time()` values are modelled as `Int` seconds.
* Flask's `session` is the pair of keys the code uses (`authorized`,
  `last_active`); `session.clear()` resets both.
* HTTP outcomes (redirect / 404 / 400 / rendered page / file download)
  are an inductive `Response`.
-/

/-- A row of the `writings` table (`CREATE TABLE writings ...` in `init_db`). -/
structure Writing where
  id : Nat
  category : String
  title : String
  content : String
  created_at : String
  updated_at : String
deriving Repr, DecidableEq

/-- The database: the list of rows of the `writings` table. -/
abbrev DB := List Writing

/-- The slugs of the fixed `CATEGORIES` dict (its values are template-only data). -/
def CATEGORIES : List String := ["poemas", "cuentos", "escritos"]

/-- `PIN_CODE` (default value; env override is deployment configuration). -/
def PIN_CODE : String := "1234"

/-- `INACTIVITY_TIMEOUT = 15 * 60` seconds. -/
def INACTIVITY_TIMEOUT : Int := 15 * 60

/-- The Flask session keys the code reads and writes. -/
structure Session where
  authorized : Bool
  lastActive : Option Int
deriving Repr, DecidableEq

/-- `session.clear()`: afterwards `session.get` returns `None` for every key. -/
def Session.clear : Session := { authorized := false, lastActive := none }

/-- HTTP outcome of a request handler. -/
inductive Response where
  | redirect (url : String)
  | notFound
  | badRequest
  | page (slug : String) (writings : List Writing) (editing : Option Writing)
  | pdfFile (downloadName : String) (title : String) (text : String)
deriving Repr, DecidableEq

/-- Outcome of the `pin_required` gate: either a redirect to the PIN
prompt (with or without the `expired=1` flag) or the wrapped view runs. -/
inductive GateResult where
  | redirectPin (expired : Bool)
  | proceed
deriving Repr, DecidableEq

/-- The `pin_required` decorator's wrapper: unauthorized sessions are sent to
the PIN prompt; then `not last_active or (now - last_active) > INACTIVITY_TIMEOUT`
clears the session and redirects with `expired=1` (`not last_active` is
Python truthiness: `None` or `0.0`); otherwise `last_active` is refreshed
and the wrapped view runs. -/
def pin_required (s : Session) (now : Int) : Session × GateResult :=
  if s.authorized then
    let lastFalsyOrExpired :=
      match s.lastActive with
      | none => true
      | some t => t == 0 || now - t > INACTIVITY_TIMEOUT
    if lastFalsyOrExpired then (Session.clear, .redirectPin true)
    else ({ s with lastActive := some now }, .proceed)
  else (s, .redirectPin false)

/-- Response of the `/pin` route. -/
inductive PinResponse where
  | redirectHome
  | promptPin (error : Option String)
deriving Repr, DecidableEq

/-- The `/pin` route: on POST, a submitted value equal to `PIN_CODE`
authorizes the session, records the activity time and redirects to home;
any other value re-renders the prompt with an inline error. On GET the
prompt is rendered (with the inactivity message when `expired` is set). -/
def pin (s : Session) (expiredArg : Bool) (post : Option String) (now : Int) :
    Session × PinResponse :=
  let error : Option String :=
    if expiredArg then some "Tu sesión se cerró por inactividad. Ingresa el PIN de nuevo."
    else none
  match post with
  | some entered =>
      if entered = PIN_CODE then
        ({ s with authorized := true, lastActive := some now }, .redirectHome)
      else
        (s, .promptPin (some "PIN incorrecto. Inténtalo de nuevo."))
  | none => (s, .promptPin error)

/-- The form posted to `/categoria/<slug>`: `id` (absent or empty on
create), `title` and `content` (Quill HTML). -/
structure PostForm where
  id : Option Nat
  title : String
  content : String
deriving Repr, DecidableEq

/-- A request to `/categoria/<slug>`: a POST carrying the form, or a GET
with an optional `edit_id` query argument. -/
inductive CategoryRequest where
  | post (form : PostForm)
  | get (editId : Option Nat)
deriving Repr, DecidableEq

/-- Python's `str.strip()`: drop whitespace from both ends. -/
def strip (s : String) : String :=
  String.mk (((s.data.dropWhile Char.isWhitespace).reverse.dropWhile
    Char.isWhitespace).reverse)

/-- `AUTOINCREMENT` surrogate key: strictly larger than every id in use. -/
def next_id (db : DB) : Nat := db.foldr (fun w m => max w.id m) 0 + 1

/-- The descending `updated_at` order used by
`SELECT * FROM writings WHERE category = ? ORDER BY updated_at DESC`. -/
def updatedDesc (a b : Writing) : Prop := b.updated_at ≤ a.updated_at

instance : DecidableRel updatedDesc := fun a b =>
  inferInstanceAs (Decidable (b.updated_at ≤ a.updated_at))

/-- The `category_view` handler. Unknown slugs 404. POST with an id runs
`UPDATE ... SET title, content, updated_at WHERE id = ? AND category = ?`,
POST without an id inserts a fresh row with `created_at = updated_at = now`;
the title falls back to `"Sin título"` when blank after `strip`. GET
renders the category page: rows of the category ordered by `updated_at`
descending, plus the `edit_id` row (scoped by category) when requested. -/
def category_view (db : DB) (slug : String) (req : CategoryRequest) (now : String) :
    DB × Response :=
  if slug ∈ CATEGORIES then
    match req with
    | .post form =>
        let title := if strip form.title = "" then "Sin título" else strip form.title
        let content := strip form.content
        match form.id with
        | some writing_id =>
            (db.map (fun w =>
               if w.id == writing_id && w.category == slug then
                 { w with title := title, content := content, updated_at := now }
               else w),
             .redirect ("/categoria/" ++ slug))
        | none =>
            (db ++ [{ id := next_id db, category := slug, title := title,
                      content := content, created_at := now, updated_at := now }],
             .redirect ("/categoria/" ++ slug))
    | .get editId =>
        let editing :=
          match editId with
          | some e => db.find? (fun w => w.id == e && w.category == slug)
          | none => none
        let writings :=
          (db.filter (fun w => w.category == slug)).insertionSort updatedDesc
        (db, .page slug writings editing)
  else (db, .notFound)

/-- One reduction step of `re.sub("<[^<]+?>", "", ...)`: after an opening
`<`, consume at least one non-`<` character up to the first `>` (the
non-greedy match); `none` when no such match starts here. Returns the
remainder after the closing `>`. -/
def chopTag : List Char → Option (List Char)
  | [] => none
  | c :: rest =>
      if c = '<' then none
      else
        match rest with
        | '>' :: rest2 => some rest2
        | _ => chopTag rest

/-- Left-to-right scan of `re.sub("<[^<]+?>", "", html)`, fuel-indexed to
keep the recursion structural: each step consumes at least one character,
so any `fuel ≥ length` computes the fixpoint and the `0` clause is dead. -/
def stripTagsAux : Nat → List Char → List Char
  | 0, l => l
  | _ + 1, [] => []
  | fuel + 1, c :: rest =>
      if c = '<' then
        match chopTag rest with
        | some rest2 => stripTagsAux fuel rest2
        | none => c :: stripTagsAux fuel rest
      else c :: stripTagsAux fuel rest

/-- `text_content = re.sub("<[^<]+?>", "", html_content)`. -/
def stripTags (s : String) : String :=
  String.mk (stripTagsAux s.data.length s.data)

/-- The per-character effect of
`title.lower().replace(" ", "_").replace("/", "_").replace("\\", "_")`:
lowercase (`Char.toLower` is the ASCII lowering, as in the source's
basic-latin titles), then map space, forward slash and backslash to an
underscore. -/
def sanitizeChar (c : Char) : Char :=
  let lc := c.toLower
  if lc = ' ' ∨ lc = '/' ∨ lc = '\\' then '_' else lc

/-- `title.lower().replace(" ", "_").replace("/", "_").replace("\\", "_")`:
each replaced pattern is a single character, so the chained replaces are a
per-character map after lowercasing. -/
def sanitizeTitle (title : String) : String :=
  String.mk (title.data.map sanitizeChar)

/-- The filename `download_text` sends: sanitized title (falling back to
`"sin_titulo"` for a falsy title) plus the `.pdf` extension. -/
def downloadNameOf (row : Writing) : String :=
  sanitizeTitle (if row.title = "" then "sin_titulo" else row.title) ++ ".pdf"

/-- The `/texto/<id>/descargar` handler: fetches the row by id alone
(`SELECT * FROM writings WHERE id = ?`), 404s when absent, otherwise sends
a PDF named from the sanitized title, containing the title and the
tag-stripped content (page layout of the PDF is not modelled). -/
def download_text (db : DB) (writing_id : Nat) : Response :=
  match db.find? (fun w => w.id == writing_id) with
  | none => .notFound
  | some row =>
      let title := if row.title = "" then "sin_titulo" else row.title
      .pdfFile (downloadNameOf row) title (stripTags row.content)

/-- The `/texto/<id>/borrar` handler: the form's `slug` must be a known
category (else 400), then `DELETE FROM writings WHERE id = ? AND
category = ?` and redirect back to the category page. A missing form field
is `None`, which is not in `CATEGORIES`. -/
def delete_text (db : DB) (writing_id : Nat) (slug : Option String) : DB × Response :=
  match slug with
  | none => (db, .badRequest)
  | some s =>
      if s ∈ CATEGORIES then
        (db.filter (fun w => !(w.id == writing_id && w.category == s)),
         .redirect ("/categoria/" ++ s))
      else (db, .badRequest)

/-! ## Helper lemmas -/

theorem uint32_le_iff (a b : UInt32) : a ≤ b ↔ a.toNat ≤ b.toNat := Iff.rfl

theorem toNat_u65 : (65 : UInt32).toNat = 65 := rfl

theorem toNat_u90 : (90 : UInt32).toNat = 90 := rfl

theorem char_toNat_ofNat_valid (n : Nat) (h : n < 55296) : (Char.ofNat n).toNat = n := by
  simp [Char.ofNat, dif_pos (Or.inl h : Nat.isValidChar n), Char.ofNatAux, Char.toNat,
    UInt32.toNat, BitVec.toNat_ofNatLt]

theorem char_toNat_val (c : Char) : c.val.toNat = c.toNat := rfl

theorem toLower_isUpper_false (c : Char) : c.toLower.isUpper = false := by
  by_cases h : 65 ≤ c.toNat ∧ c.toNat ≤ 90
  · have e : c.toLower = Char.ofNat (c.toNat + 32) := by
      unfold Char.toLower
      simp [h]
    rw [e]
    have h2 : (Char.ofNat (c.toNat + 32)).toNat = c.toNat + 32 :=
      char_toNat_ofNat_valid _ (by omega)
    unfold Char.isUpper
    have hle : ¬ ((Char.ofNat (c.toNat + 32)).val ≤ 90) := by
      rw [uint32_le_iff, char_toNat_val, toNat_u90, h2]
      omega
    simp [hle]
  · have e : c.toLower = c := by
      unfold Char.toLower
      simp [h]
    rw [e]
    unfold Char.isUpper
    by_cases h65 : (65 : UInt32) ≤ c.val
    · have hle : ¬ (c.val ≤ 90) := by
        rw [uint32_le_iff, char_toNat_val, toNat_u65] at h65
        rw [uint32_le_iff, char_toNat_val, toNat_u90]
        omega
      simp [hle]
    · simp [h65]

instance : IsTotal Writing updatedDesc :=
  ⟨fun a b => (le_total b.updated_at a.updated_at).imp id id⟩

instance : IsTrans Writing updatedDesc :=
  ⟨fun _ _ _ h1 h2 => le_trans h2 h1⟩

/-! ## Claims -/

/-- C3: for an authorized session on a protected route (last-activity
records come from `time.time()`, hence are positive), the `pin_required`
gate clears the session and redirects to the PIN prompt with the expired
flag when no last-activity record exists or more than
`INACTIVITY_TIMEOUT` has elapsed; otherwise it refreshes `last_active` to
the current time and lets the request through. -/
theorem inactivity_gate_behavior (s : Session) (now : Int)
    (hauth : s.authorized = true)
    (hpos : ∀ t, s.lastActive = some t → 0 < t) :
    (s.lastActive = none →
       pin_required s now = (Session.clear, .redirectPin true)) ∧
    (∀ t, s.lastActive = some t → now - t > INACTIVITY_TIMEOUT →
       pin_required s now = (Session.clear, .redirectPin true)) ∧
    (∀ t, s.lastActive = some t → now - t ≤ INACTIVITY_TIMEOUT →
       pin_required s now = ({ s with lastActive := some now }, .proceed)) := by
  refine ⟨?_, ?_, ?_⟩
  · intro hn
    simp [pin_required, hauth, hn]
  · intro t ht hexp
    simp [pin_required, hauth, ht, hexp]
  · intro t ht hle
    have htz : t ≠ 0 := by
      have := hpos t ht
      omega
    have hgt : ¬ (now - t > INACTIVITY_TIMEOUT) := by omega
    simp [pin_required, hauth, ht, htz, hgt]

theorem inactivity_gate_behavior_witness :
    pin_required ⟨true, some 5⟩ 10 = ({ authorized := true, lastActive := some 10 }, .proceed) ∧
    pin_required ⟨true, some 5⟩ 1000 = (Session.clear, .redirectPin true) ∧
    pin_required ⟨true, none⟩ 10 = (Session.clear, .redirectPin true) :=
  have hpos : ∀ t, (Session.mk true (some 5)).lastActive = some t → 0 < t := by
    intro t ht
    simp at ht
    omega
  have hnone : ∀ t, (Session.mk true none).lastActive = some t → 0 < t := by
    intro t ht
    simp at ht
  ⟨(inactivity_gate_behavior ⟨true, some 5⟩ 10 rfl hpos).2.2 5 rfl (by decide),
   (inactivity_gate_behavior ⟨true, some 5⟩ 1000 rfl hpos).2.1 5 rfl (by decide),
   (inactivity_gate_behavior ⟨true, none⟩ 10 rfl hnone).1 rfl⟩

/-- C4: a POSTed PIN equal to `PIN_CODE` authorizes the session, records
the current activity time and redirects to home; any other value leaves
the session exactly as it was (in particular unauthorized, and with no
lockout or attempt counter) and re-renders the prompt with the inline
error message. -/
theorem pin_submission_behavior (s : Session) (expiredArg : Bool)
    (entered : String) (now : Int) :
    (entered = PIN_CODE →
       pin s expiredArg (some entered) now =
         ({ s with authorized := true, lastActive := some now }, .redirectHome)) ∧
    (entered ≠ PIN_CODE →
       pin s expiredArg (some entered) now =
         (s, .promptPin (some "PIN incorrecto. Inténtalo de nuevo."))) := by
  constructor
  · intro h
    simp [pin, h]
  · intro h
    simp [pin, h]

theorem pin_submission_behavior_witness :
    pin ⟨false, none⟩ false (some "1234") 7 =
      ({ authorized := true, lastActive := some 7 }, .redirectHome) ∧
    pin ⟨false, none⟩ false (some "0000") 7 =
      (⟨false, none⟩, .promptPin (some "PIN incorrecto. Inténtalo de nuevo.")) :=
  ⟨(pin_submission_behavior ⟨false, none⟩ false "1234" 7).1 rfl,
   (pin_submission_behavior ⟨false, none⟩ false "0000" 7).2 (by decide)⟩

/-- C1: under the schema's unique-id invariant, a delete request whose
form category does not match a stored row's category leaves that row
intact (whatever the requested id), and a delete request with the row's
id and its category removes that row and no other. -/
theorem delete_category_scoping (db : DB) (w : Writing) (wid : Nat) (s : String)
    (hmem : w ∈ db) (hnodup : (db.map Writing.id).Nodup) :
    (s ≠ w.category → w ∈ (delete_text db wid (some s)).1) ∧
    (s = w.category → wid = w.id → s ∈ CATEGORIES →
       w ∉ (delete_text db wid (some s)).1 ∧
       ∀ w' ∈ db, w' ≠ w → w' ∈ (delete_text db wid (some s)).1) := by
  constructor
  · intro hne
    by_cases hcat : s ∈ CATEGORIES
    · simp only [delete_text, if_pos hcat]
      refine List.mem_filter.mpr ⟨hmem, ?_⟩
      have hne' : w.category ≠ s := fun h => hne h.symm
      have hb : (w.category == s) = false := by simp [hne']
      simp [hb]
    · simp [delete_text, hcat, hmem]
  · intro hcat hid hval
    constructor
    · simp only [delete_text, if_pos hval]
      intro hmemf
      have := (List.mem_filter.mp hmemf).2
      simp [hid, hcat] at this
    · intro w' hw' hne
      simp only [delete_text, if_pos hval]
      refine List.mem_filter.mpr ⟨hw', ?_⟩
      have hidne : w'.id ≠ w.id := fun h =>
        hne (List.inj_on_of_nodup_map hnodup hw' hmem h)
      have : (w'.id == wid) = false := by
        simp [hid, hidne]
      simp [this]

theorem delete_category_scoping_witness :
    ((⟨1, "poemas", "A", "x", "t0", "t0"⟩ : Writing) ∈
       (delete_text [⟨1, "poemas", "A", "x", "t0", "t0"⟩] 1 (some "cuentos")).1) ∧
    ((⟨1, "poemas", "A", "x", "t0", "t0"⟩ : Writing) ∉
       (delete_text [⟨1, "poemas", "A", "x", "t0", "t0"⟩,
                     ⟨2, "poemas", "B", "y", "t0", "t0"⟩] 1 (some "poemas")).1 ∧
     ∀ w' ∈ ([⟨1, "poemas", "A", "x", "t0", "t0"⟩,
              ⟨2, "poemas", "B", "y", "t0", "t0"⟩] : DB),
       w' ≠ ⟨1, "poemas", "A", "x", "t0", "t0"⟩ →
       w' ∈ (delete_text [⟨1, "poemas", "A", "x", "t0", "t0"⟩,
                          ⟨2, "poemas", "B", "y", "t0", "t0"⟩] 1 (some "poemas")).1) :=
  ⟨(delete_category_scoping [⟨1, "poemas", "A", "x", "t0", "t0"⟩]
      ⟨1, "poemas", "A", "x", "t0", "t0"⟩ 1 "cuentos"
      (by decide) (by decide)).1 (by decide),
   (delete_category_scoping [⟨1, "poemas", "A", "x", "t0", "t0"⟩,
                             ⟨2, "poemas", "B", "y", "t0", "t0"⟩]
      ⟨1, "poemas", "A", "x", "t0", "t0"⟩ 1 "poemas"
      (by decide) (by decide)).2 rfl rfl (by decide)⟩

/-- C2: a POST carrying an id, handled under a slug different from a
stored row's category, leaves that row unchanged (position by position):
the UPDATE is scoped by `id = ? AND category = ?`. -/
theorem update_other_category_frame (db : DB) (slug : String) (i : Nat)
    (form : PostForm) (now : String) (hform : form.id = some i) :
    List.Forall₂ (fun old new => old.category ≠ slug → new = old)
      db (category_view db slug (.post form) now).1 := by
  by_cases h : slug ∈ CATEGORIES
  · simp only [category_view, if_pos h, hform]
    refine List.forall₂_map_right_iff.mpr (List.forall₂_same.mpr ?_)
    intro w _ hcat
    have : (w.category == slug) = false := by simp [hcat]
    simp [this]
  · simp only [category_view, if_neg h]
    exact List.forall₂_same.mpr (fun x _ _ => rfl)

theorem update_other_category_frame_witness :
    List.Forall₂ (fun old new => old.category ≠ "poemas" → new = old)
      [⟨1, "cuentos", "A", "x", "t0", "t0"⟩]
      (category_view [⟨1, "cuentos", "A", "x", "t0", "t0"⟩] "poemas"
        (.post ⟨some 1, "B", "y"⟩) "t1").1 :=
  update_other_category_frame [⟨1, "cuentos", "A", "x", "t0", "t0"⟩]
    "poemas" 1 ⟨some 1, "B", "y"⟩ "t1" rfl

/-- C5 counterexample: an update that submits a new title rewrites the
stored row's title (and content), so more than `updated_at` changes: here
the single row's title goes from `"A"` to `"B"`. -/
theorem update_changes_more_than_updated_at :
    ((category_view [⟨1, "poemas", "A", "x", "t0", "t0"⟩] "poemas"
        (.post ⟨some 1, "B", "y"⟩) "t1").1).map Writing.title ≠ ["A"] := by
  decide

/-- C5 as amended: an update scoped to a matching id and (valid) category
sets the row's title and content to the submitted (trimmed, defaulted)
values and `updated_at` to the current time, while `id`, `category` and
`created_at` stay unchanged. -/
theorem update_matching_row_fields (db : DB) (slug : String) (i : Nat)
    (form : PostForm) (now : String)
    (hform : form.id = some i) (hslug : slug ∈ CATEGORIES) :
    List.Forall₂ (fun old new =>
        old.id = i → old.category = slug →
          new.id = old.id ∧ new.category = old.category ∧
          new.created_at = old.created_at ∧ new.updated_at = now ∧
          new.title = (if strip form.title = "" then "Sin título" else strip form.title) ∧
          new.content = strip form.content)
      db (category_view db slug (.post form) now).1 := by
  simp only [category_view, if_pos hslug, hform]
  refine List.forall₂_map_right_iff.mpr (List.forall₂_same.mpr ?_)
  intro w _ hid hcat
  have : (w.id == i && w.category == slug) = true := by simp [hid, hcat]
  simp [this]

theorem update_matching_row_fields_witness :
    List.Forall₂ (fun (old new : Writing) =>
        old.id = 1 → old.category = "poemas" →
          new.id = old.id ∧ new.category = old.category ∧
          new.created_at = old.created_at ∧ new.updated_at = "t1" ∧
          new.title = (if strip "B" = "" then "Sin título" else strip "B") ∧
          new.content = strip "y")
      [⟨1, "poemas", "A", "x", "t0", "t0"⟩]
      (category_view [⟨1, "poemas", "A", "x", "t0", "t0"⟩] "poemas"
        (.post ⟨some 1, "B", "y"⟩) "t1").1 :=
  update_matching_row_fields [⟨1, "poemas", "A", "x", "t0", "t0"⟩]
    "poemas" 1 ⟨some 1, "B", "y"⟩ "t1" rfl (by decide)

/-- C6: for a valid category slug, the GET view renders exactly the
writings whose category equals the slug (a permutation of the filtered
table), ordered by `updated_at` descending. -/
theorem list_category_ordered (db : DB) (slug : String) (e : Option Nat)
    (now : String) (h : slug ∈ CATEGORIES) :
    ∃ ws ed, category_view db slug (.get e) now = (db, .page slug ws ed) ∧
      ws.Perm (db.filter (fun w => w.category == slug)) ∧
      ws.Sorted updatedDesc := by
  refine ⟨(db.filter (fun w => w.category == slug)).insertionSort updatedDesc,
    (match e with
     | some x => db.find? (fun w => w.id == x && w.category == slug)
     | none => none), ?_, ?_, ?_⟩
  · simp [category_view, h]
  · exact List.perm_insertionSort updatedDesc _
  · exact List.sorted_insertionSort updatedDesc _

theorem list_category_ordered_witness :
    ∃ ws ed,
      category_view [⟨1, "poemas", "A", "x", "t0", "t3"⟩,
                     ⟨2, "poemas", "B", "y", "t0", "t5"⟩,
                     ⟨3, "cuentos", "C", "z", "t0", "t9"⟩]
        "poemas" (.get none) "t1" =
        ([⟨1, "poemas", "A", "x", "t0", "t3"⟩,
          ⟨2, "poemas", "B", "y", "t0", "t5"⟩,
          ⟨3, "cuentos", "C", "z", "t0", "t9"⟩], .page "poemas" ws ed) ∧
      ws.Perm (([⟨1, "poemas", "A", "x", "t0", "t3"⟩,
                 ⟨2, "poemas", "B", "y", "t0", "t5"⟩,
                 ⟨3, "cuentos", "C", "z", "t0", "t9"⟩] : DB).filter
                 (fun w => w.category == "poemas")) ∧
      ws.Sorted updatedDesc :=
  list_category_ordered
    [⟨1, "poemas", "A", "x", "t0", "t3"⟩,
     ⟨2, "poemas", "B", "y", "t0", "t5"⟩,
     ⟨3, "cuentos", "C", "z", "t0", "t9"⟩] "poemas" none "t1" (by decide)

/-- C7: a POST without an id appends a fresh row whose `created_at`
equals its `updated_at`, and whose title is the `"Sin título"`
placeholder whenever the submitted title is blank after stripping
(a missing form field reads as the empty string). -/
theorem create_timestamps_and_default_title (db : DB) (slug : String)
    (form : PostForm) (now : String)
    (hid : form.id = none) (hslug : slug ∈ CATEGORIES) :
    ∃ w, (category_view db slug (.post form) now).1 = db ++ [w] ∧
      w.created_at = w.updated_at ∧
      (strip form.title = "" → w.title = "Sin título") := by
  refine ⟨{ id := next_id db, category := slug,
            title := if strip form.title = "" then "Sin título" else strip form.title,
            content := strip form.content, created_at := now, updated_at := now },
    ?_, rfl, ?_⟩
  · simp [category_view, hslug, hid]
  · intro hb
    simp [hb]

theorem create_timestamps_and_default_title_witness :
    ∃ w, (category_view [] "poemas" (.post ⟨none, "  ", "c"⟩) "t1").1 = [] ++ [w] ∧
      w.created_at = w.updated_at ∧
      (strip "  " = "" → w.title = "Sin título") :=
  create_timestamps_and_default_title [] "poemas" ⟨none, "  ", "c"⟩ "t1" rfl (by decide)

/-- C8: the download filename is the sanitized title plus `.pdf`: it
contains no uppercase ASCII letter and no space, forward slash or
backslash, whatever the stored title. -/
theorem sanitizeChar_ok (c : Char) :
    (sanitizeChar c).isUpper = false ∧ sanitizeChar c ≠ ' ' ∧
      sanitizeChar c ≠ '/' ∧ sanitizeChar c ≠ '\\' := by
  unfold sanitizeChar
  by_cases h : c.toLower = ' ' ∨ c.toLower = '/' ∨ c.toLower = '\\'
  · rw [if_pos h]
    exact ⟨rfl, by decide, by decide, by decide⟩
  · rw [if_neg h]
    push_neg at h
    exact ⟨toLower_isUpper_false c, h.1, h.2.1, h.2.2⟩

theorem download_filename_sanitized (row : Writing) :
    (downloadNameOf row).data.all
      (fun c => !c.isUpper && !(c == ' ') && !(c == '/') && !(c == '\\')) = true := by
  unfold downloadNameOf
  rw [String.data_append, List.all_append, Bool.and_eq_true]
  refine ⟨?_, by decide⟩
  unfold sanitizeTitle
  rw [List.all_eq_true]
  intro c hc
  rcases List.mem_map.mp hc with ⟨c0, _, he⟩
  subst he
  obtain ⟨h1, h2, h3, h4⟩ := sanitizeChar_ok c0
  simp [h1, h2, h3, h4]

/-- C9: error handling. A slug outside the category set 404s on the
list/create/update route; a download of an id no row carries 404s; a
delete of such an id under a valid category redirects and leaves the
table unchanged (no-op); a delete whose form category is unknown or
missing 400s without touching the table. -/
theorem error_handling_cases (db : DB) (s : String) (i : Nat)
    (req : CategoryRequest) (now : String) :
    (s ∉ CATEGORIES → category_view db s req now = (db, .notFound)) ∧
    ((∀ w ∈ db, w.id ≠ i) → download_text db i = .notFound) ∧
    (s ∈ CATEGORIES → (∀ w ∈ db, w.id ≠ i) →
       delete_text db i (some s) = (db, .redirect ("/categoria/" ++ s))) ∧
    (s ∉ CATEGORIES → delete_text db i (some s) = (db, .badRequest)) ∧
    delete_text db i none = (db, .badRequest) := by
  refine ⟨?_, ?_, ?_, ?_, rfl⟩
  · intro h
    simp [category_view, h]
  · intro h
    have hf : db.find? (fun w => w.id == i) = none :=
      List.find?_eq_none.mpr (by intro w hw; simpa using h w hw)
    simp [download_text, hf]
  · intro hs h
    simp [delete_text, hs]
    exact fun a ha => Or.inl (h a ha)
  · intro h
    simp [delete_text, h]

theorem error_handling_cases_witness :
    category_view [] "novelas" (.get none) "t0" = ([], .notFound) ∧
    download_text [⟨1, "poemas", "A", "x", "t0", "t0"⟩] 2 = .notFound ∧
    delete_text [⟨1, "poemas", "A", "x", "t0", "t0"⟩] 2 (some "poemas") =
      ([⟨1, "poemas", "A", "x", "t0", "t0"⟩], .redirect "/categoria/poemas") ∧
    delete_text [] 1 (some "novelas") = ([], .badRequest) ∧
    delete_text [] 1 none = ([], .badRequest) :=
  ⟨(error_handling_cases [] "novelas" 1 (.get none) "t0").1 (by decide),
   (error_handling_cases [⟨1, "poemas", "A", "x", "t0", "t0"⟩] "poemas" 2
      (.get none) "t0").2.1 (by decide),
   (error_handling_cases [⟨1, "poemas", "A", "x", "t0", "t0"⟩] "poemas" 2
      (.get none) "t0").2.2.1 (by decide) (by decide),
   (error_handling_cases [] "novelas" 1 (.get none) "t0").2.2.2.1 (by decide),
   (error_handling_cases [] "novelas" 1 (.get none) "t0").2.2.2.2⟩

/-- C10: the download route is not category-scoped. Rewriting every
row's category arbitrarily does not change what any download request
returns (the row is fetched by id alone), and a stored writing's id
always downloads successfully — no category is supplied or matched,
unlike update and delete. -/
theorem download_ignores_category (db : DB) (i : Nat) (f : Writing → String) :
    download_text (db.map (fun w => { w with category := f w })) i =
      download_text db i ∧
    (∀ w ∈ db, w.id = i → download_text db i ≠ Response.notFound) := by
  constructor
  · unfold download_text
    rw [List.find?_map]
    have hcomp : ((fun w : Writing => w.id == i) ∘
        (fun w : Writing => { w with category := f w })) =
        (fun w : Writing => w.id == i) := rfl
    rw [hcomp]
    cases hf : db.find? (fun w => w.id == i) with
    | none => rfl
    | some row => rfl
  · intro w hw hi
    have hsome : (db.find? (fun w => w.id == i)).isSome :=
      List.find?_isSome.mpr ⟨w, hw, by simp [hi]⟩
    rcases Option.isSome_iff_exists.mp hsome with ⟨row, hrow⟩
    simp [download_text, hrow]

theorem download_ignores_category_witness :
    download_text (([⟨1, "poemas", "T", "c", "t0", "t0"⟩] : DB).map
        (fun w => { w with category := "cuentos" })) 1 =
      download_text [⟨1, "poemas", "T", "c", "t0", "t0"⟩] 1 ∧
    download_text [⟨1, "poemas", "T", "c", "t0", "t0"⟩] 1 ≠ Response.notFound :=
  ⟨(download_ignores_category [⟨1, "poemas", "T", "c", "t0", "t0"⟩] 1
      (fun _ => "cuentos")).1,
   (download_ignores_category [⟨1, "poemas", "T", "c", "t0", "t0"⟩] 1
      (fun _ => "cuentos")).2 (⟨1, "poemas", "T", "c", "t0", "t0"⟩ : Writing) (by decide) rfl⟩
